import Mathlib

/-!
Verification development for `idb-readable-stream` (src/index.js): a module
that adapts an IndexedDB cursor into a Node readable (Transform) stream.

The embedding below translates the source into Lean:

* JavaScript values relevant to the construction-time type checks
  (`typeof db !== 'object'`, `typeof storeName !== 'string'`, lines 44-47)
  are modelled by the `JSVal` type with a `typeof` function.
* Keys are modelled as `Int` (IndexedDB number keys); JavaScript truthiness
  of a key is `k ≠ 0` (the falsy number key is `0`).
* The effective key range computed by `startCursor` (lines 64-92) is
  `effectiveRange`: it mirrors the `if (lastIteratedKey)` narrowing and the
  `if (lower && upper) ... else if (lower) ... else if (upper)` chain which
  builds `IDBKeyRange.bound / lowerBound / upperBound` or leaves the range
  undefined.
* A whole run of the stream over a snapshot-stable store, with a schedule of
  transaction-inactive ("timeout") faults, is `runStream` (the recursive
  `startCursor` / `proceed` / `req.onsuccess` loop, lines 64-133).
* The event-level behaviour (write acceptance / `'drain'` backpressure,
  `tx.onabort` / `tx.onerror` handlers) is the small-step machine
  `handleEvent` over `EState`.
-/

/-- Model of the JavaScript values distinguished by the `typeof` checks in
`idbReadableStream` (src/index.js lines 44-47). A single `object`
constructor suffices: the claims only distinguish `typeof` categories and
`null`. -/
inductive JSVal
  | undef
  | jsNull
  | boolean (b : Bool)
  | number (n : Int)
  | string (s : String)
  | object
  | function
  deriving DecidableEq, Repr

/-- JavaScript `typeof` operator on the modelled values; note
`typeof null = "object"`. -/
def JSVal.typeofJs : JSVal → String
  | .undef => "undefined"
  | .jsNull => "object"
  | .boolean _ => "boolean"
  | .number _ => "number"
  | .string _ => "string"
  | .object => "object"
  | .function => "function"

/-- JavaScript loose equality to null (`opts == null`, line 46): true for
both `null` and `undefined`. -/
def JSVal.eqNull : JSVal → Bool
  | .undef => true
  | .jsNull => true
  | _ => false

/-- Errors a construction attempt can raise: the two `TypeError`s thrown by
the argument validation (lines 44-45), the `TypeError` for a malformed
`opts` (line 47), and the runtime `TypeError` raised when
`db.transaction(...)` (line 94) is called on a `null` handle. -/
inductive ConstructErr
  | dbNotObject
  | storeNameNotString
  | optsNotObject
  | nullTransactionCall
  deriving DecidableEq, Repr

/-- Model of the synchronous part of `idbReadableStream(db, storeName, opts)`
(lines 43-47 and the immediate `startCursor()` call at line 133 up to its
first `db.transaction` at line 94). The returned `Nat` counts transactions
opened: `0` on every error path, `1` when construction reaches a transaction. -/
def construct (db storeName opts : JSVal) : Except ConstructErr Unit × Nat :=
  if db.typeofJs ≠ "object" then (.error .dbNotObject, 0)
  else if storeName.typeofJs ≠ "string" then (.error .storeNameNotString, 0)
  else if ¬ opts.eqNull ∧ opts.typeofJs ≠ "object" then (.error .optsNotObject, 0)
  else if db = .jsNull then (.error .nullTransactionCall, 0)
  else (.ok (), 1)

/-- The four IndexedDB cursor directions (doc comment lines 32-33). -/
inductive Direction
  | next
  | nextunique
  | prev
  | prevunique
  deriving DecidableEq, Repr

/-- The `opts.range` object as read by `startCursor` (lines 70-73): optional
lower/upper bound values and open flags. Bound values are modelled as keys
(`Int`); an absent property is `none`. -/
structure JsRange where
  lower : Option Int
  upper : Option Int
  lowerOpen : Bool
  upperOpen : Bool
  deriving DecidableEq, Repr

/-- The recognised options of `idbReadableStream` after defaulting:
`opts.range` (`|| {}` at line 68), `opts.direction` (`|| 'next'` at
line 67) and `opts.reopenOnTimeout` (defaulted by `xtend` at lines 57-59). -/
structure Config where
  range : Option JsRange
  direction : Option Direction
  reopenOnTimeout : Bool
  deriving DecidableEq, Repr

/-- Resolution of the `reopenOnTimeout` option by
`xtend({ reopenOnTimeout: true }, opts)` (lines 57-59): the caller's own
property wins when present, otherwise the default `true`. -/
def resolveReopenOnTimeout (o : Option Bool) : Bool :=
  o.getD true

/-- JavaScript truthiness of a possibly-null key value: `null` is falsy and
the number `0` is falsy (used by `if (lastIteratedKey)` at line 76 and by
the `lower && upper` chain at lines 87-92). -/
def truthyKey : Option Int → Bool
  | none => false
  | some k => k ≠ 0

/-- The key range actually passed to `store.openCursor` (line 98): each side
is either absent (`none`) or a bound value paired with its open flag. An
absent side is unbounded, matching `IDBKeyRange.lowerBound`,
`IDBKeyRange.upperBound`, or the `undefined` range. -/
structure EffRange where
  lower : Option (Int × Bool)
  upper : Option (Int × Bool)
  deriving DecidableEq, Repr

/-- Translation of the range computation of `startCursor` (lines 65-92):
read the configured bounds, narrow on the consuming side when
`lastIteratedKey` is truthy (`lowerOpen = true; lower = lastIteratedKey`
for `direction === 'next'`, otherwise `upperOpen = true; upper =
lastIteratedKey`), then keep each side only when its value is truthy
(the `if (lower && upper) ... else if (lower) ... else if (upper)` chain). -/
def effectiveRange (opts : Config) (lastIteratedKey : Option Int) : EffRange :=
  let direction := opts.direction.getD .next
  let range := opts.range.getD ⟨none, none, false, false⟩
  let lower := range.lower
  let upper := range.upper
  let lowerOpen := range.lowerOpen
  let upperOpen := range.upperOpen
  let s :=
    match lastIteratedKey with
    | some k =>
        if k ≠ 0 then
          if direction = Direction.next then (some k, upper, true, upperOpen)
          else (lower, some k, lowerOpen, true)
        else (lower, upper, lowerOpen, upperOpen)
    | none => (lower, upper, lowerOpen, upperOpen)
  { lower := if truthyKey s.1 then s.1.map (fun k => (k, s.2.2.1)) else none
    upper := if truthyKey s.2.1 then s.2.1.map (fun k => (k, s.2.2.2)) else none }

/-- Whether a key lies inside an effective range (the set of keys an
IndexedDB cursor over that range visits). -/
def inEffRange (er : EffRange) (k : Int) : Bool :=
  (match er.lower with
   | none => true
   | some (l, op) => if op then decide (l < k) else decide (l ≤ k)) &&
  (match er.upper with
   | none => true
   | some (u, op) => if op then decide (k < u) else decide (k ≤ u))

/-- Whether a direction iterates ascending (`next`/`nextunique`). -/
def Direction.isForward : Direction → Bool
  | .next => true
  | .nextunique => true
  | _ => false

/-- The record sequence a cursor opened over `er` with direction `dir`
yields, for a store whose records are listed ascending by key (object-store
keys are unique, so the unique variants visit the same records). -/
def cursorRecords (store : List (Int × Int)) (dir : Direction) (er : EffRange) :
    List (Int × Int) :=
  let recs := store.filter (fun r => inEffRange er r.1)
  if dir.isForward then recs else recs.reverse

/-- The records one cursor generation visits, given the value of
`lastIteratedKey` at the time `startCursor` ran. -/
def genRecs (store : List (Int × Int)) (cfg : Config) (last : Option Int) :
    List (Int × Int) :=
  cursorRecords store (cfg.direction.getD .next) (effectiveRange cfg last)

/-- An error observable downstream: the `TransactionInactiveError` thrown by
`cursor.continue()` (line 102), or a transaction failure surfaced by
`tx.onabort` / `tx.onerror` (lines 125-130) carrying `tx.error`. -/
inductive Err
  | transactionInactive
  | txFailed (code : Int)
  deriving DecidableEq, Repr

/-- An output of the transform stream as the consumer sees it: a
`{key, value}` record written at line 117, the end signal from
`transformer.end()` (line 122), or an `'error'` emission. -/
inductive Out
  | data (key value : Int)
  | endSig
  | errSig (e : Err)
  deriving DecidableEq, Repr

/-- Keys of the data records in an output list, in emission order. -/
def dataKeys (l : List Out) : List Int :=
  l.filterMap (fun o => match o with | .data k _ => some k | _ => none)

/-- Number of `'error'` emissions in an output list. -/
def errCount : List Out → Nat
  | [] => 0
  | .errSig _ :: t => errCount t + 1
  | .data _ _ :: t => errCount t
  | .endSig :: t => errCount t

/-- Whole-run model of the stream over a snapshot-stable store, following
the recursion `startCursor` → `req.onsuccess` → `proceed` →
(`cursor.continue()` succeeds, or throws `TransactionInactiveError`)
(lines 64-133). The store is listed ascending by key. The fault schedule
`timeouts` is a list of continue-call indices: entry `n` means that, in the
current cursor generation, the continue call issued right after the
generation's record number `n` (0-based) throws; after the list is
exhausted no further continue call throws. A scheduled index past the end
of the generation never fires because the cursor exhausts first
(`req.onsuccess` with no cursor calls `transformer.end()`). Writes are
modelled as eventually drained, which does not change the emitted
sequence. Returns the outputs in order and the final `_cursorsOpened`
counter (incremented at line 97 on every generation). -/
def runStream (store : List (Int × Int)) (cfg : Config) :
    Option Int → Nat → List Nat → List Out × Nat
  | last, opened, [] =>
      ((genRecs store cfg last).map (fun p => Out.data p.1 p.2) ++ [Out.endSig],
        opened + 1)
  | last, opened, n :: rest =>
      let recs := genRecs store cfg last
      match recs[n]? with
      | some r =>
          let emitted := (recs.take (n + 1)).map (fun p => Out.data p.1 p.2)
          if cfg.reopenOnTimeout then
            let next := runStream store cfg (some r.1) (opened + 1) rest
            (emitted ++ next.1, next.2)
          else
            (emitted ++ [Out.errSig .transactionInactive], opened + 1)
      | none =>
          (recs.map (fun p => Out.data p.1 p.2) ++ [Out.endSig], opened + 1)

/-- Phase of the adapter between events: an `onsuccess` callback is pending
(a cursor request is outstanding), a `'drain'` listener is pending
(`transformer.once('drain', ...)`, line 120), or neither is pending (after
`transformer.end()` or after an error emission with no reopen). -/
inductive Phase
  | awaitingSuccess
  | awaitingDrain
  | done
  deriving DecidableEq, Repr

/-- Event-level state of the adapter: the pending-callback phase,
`lastIteratedKey` (line 61), the `_cursorsOpened` counter (line 62), the
number of cursor requests issued so far (`store.openCursor` at line 98 and
each successful `cursor.continue()` at line 102), and the outputs emitted
so far. -/
structure EState where
  phase : Phase
  last : Option Int
  cursorsOpened : Nat
  advRequests : Nat
  outputs : List Out
  deriving DecidableEq, Repr

/-- Events delivered to the adapter by its collaborators. A `success` event
carries the cursor result (`req.result`, line 113) together with the
environment's two decisions: whether `transformer.write` accepts the record
under capacity (its return value, line 117) and whether the subsequent
`cursor.continue()` throws `TransactionInactiveError`. A `drain` event
carries the same continue decision. `txAbort` and `txError` deliver
`tx.onabort` / `tx.onerror` with the observed `tx.error`. -/
inductive Ev
  | success (res : Option (Int × Int)) (writeOk : Bool) (contThrows : Bool)
  | drain (contThrows : Bool)
  | txAbort (code : Int)
  | txError (code : Int)
  deriving DecidableEq, Repr

/-- Whether an event is the downstream `'drain'` signal. -/
def Ev.isDrain : Ev → Bool
  | .drain _ => true
  | _ => false

/-- The `proceed(cursor)` function (lines 100-110): call `cursor.continue()`;
if it throws `TransactionInactiveError` then either re-open a cursor
(`startCursor()`, which increments `_cursorsOpened` and issues a new
`openCursor` request) when `opts.reopenOnTimeout` is set, or emit the error;
otherwise a new advance request is outstanding. -/
def proceedStep (cfg : Config) (st : EState) (contThrows : Bool) : EState :=
  if contThrows then
    if cfg.reopenOnTimeout then
      { st with phase := .awaitingSuccess,
                cursorsOpened := st.cursorsOpened + 1,
                advRequests := st.advRequests + 1 }
    else
      { st with phase := .done,
                outputs := st.outputs ++ [Out.errSig .transactionInactive] }
  else
    { st with phase := .awaitingSuccess, advRequests := st.advRequests + 1 }

/-- One event-handling step of the adapter, mirroring `req.onsuccess`
(lines 112-123), the `'drain'` listener (line 120), and the `tx.onabort` /
`tx.onerror` handlers (lines 125-130). A `success` event is only
deliverable while a request is outstanding and a `drain` event only while
the once-listener is registered; otherwise the event is a no-op for the
adapter. The transaction handlers are registered for the whole generation
and emit unconditionally. -/
def handleEvent (cfg : Config) (st : EState) : Ev → EState
  | .success res writeOk contThrows =>
      match st.phase with
      | .awaitingSuccess =>
          match res with
          | some (k, v) =>
              let st1 := { st with last := some k,
                                   outputs := st.outputs ++ [Out.data k v] }
              if writeOk then proceedStep cfg st1 contThrows
              else { st1 with phase := .awaitingDrain }
          | none => { st with phase := .done, outputs := st.outputs ++ [Out.endSig] }
      | _ => st
  | .drain contThrows =>
      match st.phase with
      | .awaitingDrain => proceedStep cfg st contThrows
      | _ => st
  | .txAbort code => { st with outputs := st.outputs ++ [Out.errSig (.txFailed code)] }
  | .txError code => { st with outputs := st.outputs ++ [Out.errSig (.txFailed code)] }

/-- Folding a list of events through `handleEvent`. -/
def runEvents (cfg : Config) (st : EState) (evs : List Ev) : EState :=
  evs.foldl (handleEvent cfg) st

/-- The adapter state right after construction: `startCursor()` has run once
(line 133), so one cursor is open, one request is outstanding and nothing
has been emitted. -/
def initialEState : EState :=
  { phase := .awaitingSuccess, last := none, cursorsOpened := 1,
    advRequests := 1, outputs := [] }

/-- The store of the end-to-end scenario: collection `items` with keys
`1..5`. Values are arbitrary distinct payloads. -/
def store5 : List (Int × Int) :=
  [(1, 10), (2, 20), (3, 30), (4, 40), (5, 50)]

/-- Configuration with unbounded range, direction forward-unique-off
(`next`) and reopening enabled. -/
def cfgNext : Config :=
  { range := none, direction := some .next, reopenOnTimeout := true }

/-- Configuration with unbounded range, direction forward-unique-on
(`nextunique`) and reopening enabled. -/
def cfgNextUnique : Config :=
  { range := none, direction := some .nextunique, reopenOnTimeout := true }

example : (construct .jsNull (.string "items") .undef).1
    = .error .nullTransactionCall := rfl
example : effectiveRange ⟨none, some .nextunique, true⟩ (some 5)
    = ⟨none, some (5, true)⟩ := by decide
example : effectiveRange ⟨none, some .next, true⟩ (some 5)
    = ⟨some (5, true), none⟩ := by decide
example : effectiveRange ⟨none, some .next, true⟩ (some 0)
    = ⟨none, none⟩ := by decide
example : runStream store5 cfgNext none 0 []
    = ([.data 1 10, .data 2 20, .data 3 30, .data 4 40, .data 5 50, .endSig], 1) := by
  decide
example : dataKeys (runStream store5 cfgNext none 0 [2]).1 = [1, 2, 3, 4, 5] := by decide
example : dataKeys (runStream store5 cfgNextUnique none 0 [2]).1 = [1, 2, 3, 1, 2] := by
  decide
example : dataKeys (runStream store5 ⟨none, some .prev, true⟩ none 0 [1]).1
    = [5, 4, 3, 2, 1] := by decide

/-! Helper lemmas about `errCount` and `runStream`, shared by the claim
theorems below. -/

theorem errCount_append (a b : List Out) :
    errCount (a ++ b) = errCount a + errCount b := by
  induction a with
  | nil => simp [errCount]
  | cons h t ih =>
      cases h with
      | data k v => simp [errCount, ih]
      | endSig => simp [errCount, ih]
      | errSig e =>
          simp [errCount, ih]
          omega

theorem errCount_map_data (l : List (Int × Int)) :
    errCount (l.map (fun p => Out.data p.1 p.2)) = 0 := by
  induction l with
  | nil => rfl
  | cons h t ih => simpa [errCount] using ih

theorem errCount_take_map_data (n : Nat) (l : List (Int × Int)) :
    errCount (List.take n (List.map (fun p => Out.data p.1 p.2) l)) = 0 := by
  rw [← List.map_take]
  exact errCount_map_data _

/-- With reopening enabled, no run of the stream ever emits an error signal:
every transaction-inactive condition is absorbed by `startCursor()`. -/
theorem errCount_runStream_reopen (store : List (Int × Int)) (cfg : Config)
    (h : cfg.reopenOnTimeout = true) :
    ∀ (trace : List Nat) (last : Option Int) (opened : Nat),
      errCount (runStream store cfg last opened trace).1 = 0 := by
  intro trace
  induction trace with
  | nil =>
      intro last opened
      simp [runStream, errCount_append, errCount_map_data, errCount]
  | cons n rest ih =>
      intro last opened
      rcases hr : (genRecs store cfg last)[n]? with _ | r
      · simp [runStream, hr, errCount_append, errCount_map_data, errCount]
      · simp [runStream, hr, h, errCount_append, errCount_map_data,
          errCount_take_map_data, ih]

/-- The `_cursorsOpened` counter grows by at least one on every run:
`startCursor` increments it before opening the cursor. -/
theorem opened_succ_le_runStream (store : List (Int × Int)) (cfg : Config) :
    ∀ (trace : List Nat) (last : Option Int) (opened : Nat),
      opened + 1 ≤ (runStream store cfg last opened trace).2 := by
  intro trace
  induction trace with
  | nil => intro last opened; simp [runStream]
  | cons n rest ih =>
      intro last opened
      rcases hr : (genRecs store cfg last)[n]? with _ | r
      · simp [runStream, hr]
      · by_cases hro : cfg.reopenOnTimeout
        · have := ih (some r.1) (opened + 1)
          simp [runStream, hr, hro]
          omega
        · simp [runStream, hr, hro]

/-! Claim theorems. -/

/-- C8: for a store holding exactly keys 1..5, unbounded range, direction
forward-unique-off and no timeouts, the stream emits the `{key, value}`
records for keys 1,2,3,4,5 in order, then ends cleanly with no error, and
exactly one cursor is opened over the whole run. -/
theorem end_to_end_scenario :
    runStream store5 cfgNext none 0 [] =
      ([.data 1 10, .data 2 20, .data 3 30, .data 4 40, .data 5 50, .endSig], 1) := by
  decide

/-- C1 counterexample evaluation: with direction forward-unique-on
(`nextunique`), reopening enabled and a transaction-inactive condition
after key 3 is emitted, the re-opened cursor re-emits keys 1 and 2 and
never reaches 4 and 5 — the emitted key sequence is [1,2,3,1,2], which has
duplicates, refuting "each key emitted exactly once". The cause is the
`direction === 'next'` test at line 77 of src/index.js, which sends the
forward direction `nextunique` into the backward (upper-bound) branch. -/
theorem timeout_reopen_duplicates_keys :
    dataKeys (runStream store5 cfgNextUnique none 0 [2]).1 = [1, 2, 3, 1, 2]
    ∧ ¬ (dataKeys (runStream store5 cfgNextUnique none 0 [2]).1).Nodup := by
  decide

/-- C2 counterexample evaluation: after emitting key 5 under the forward
direction `nextunique`, the re-opened cursor's effective range has its
upper bound set to 5 (open) and its lower side unbounded — not, as the
claim states for every forward direction, a lower bound of 5 (open). -/
theorem nextunique_reopen_narrows_wrong_side :
    effectiveRange cfgNextUnique (some 5) = ⟨none, some (5, true)⟩
    ∧ effectiveRange cfgNextUnique (some 5) ≠ ⟨some (5, true), none⟩ := by
  decide

/-- C9: a falsy last-iterated key (the number 0) disables the resume
narrowing entirely, so a re-open uses exactly the originally configured
bounds; and a configured bound whose value is falsy is dropped from the
key range, leaving that side unbounded. -/
theorem falsy_values_disable_narrowing (r : JsRange) (d : Option Direction) (b : Bool) :
    effectiveRange ⟨some r, d, b⟩ (some 0) = effectiveRange ⟨some r, d, b⟩ none
    ∧ (effectiveRange ⟨some ⟨some 0, r.upper, r.lowerOpen, r.upperOpen⟩, d, b⟩ none).lower
        = none
    ∧ (effectiveRange ⟨some ⟨r.lower, some 0, r.lowerOpen, r.upperOpen⟩, d, b⟩ none).upper
        = none := by
  refine ⟨?_, ?_, ?_⟩ <;> simp [effectiveRange, truthyKey]

/-- C4: on a transaction abort or transaction error report, the adapter
emits exactly one error signal carrying `tx.error` downstream and neither
re-opens a cursor nor issues any cursor request, for every configuration —
in particular regardless of `reopenOnTimeout`. -/
theorem tx_failure_fatal_never_retried (cfg : Config) (st : EState) (code : Int) :
    (handleEvent cfg st (.txAbort code)).outputs = st.outputs ++ [Out.errSig (.txFailed code)]
    ∧ (handleEvent cfg st (.txAbort code)).cursorsOpened = st.cursorsOpened
    ∧ (handleEvent cfg st (.txAbort code)).advRequests = st.advRequests
    ∧ (handleEvent cfg st (.txError code)).outputs = st.outputs ++ [Out.errSig (.txFailed code)]
    ∧ (handleEvent cfg st (.txError code)).cursorsOpened = st.cursorsOpened
    ∧ (handleEvent cfg st (.txError code)).advRequests = st.advRequests := by
  refine ⟨rfl, rfl, rfl, rfl, rfl, rfl⟩

/-- C6 counterexample evaluation: when the transaction reports an error
and then, as IndexedDB prescribes for a failed transaction, the subsequent
abort for the same underlying failure, the `tx.onerror` and `tx.onabort`
handlers (lines 125-130 of src/index.js) each emit `'error'`, so the
consumer receives two error signals instead of exactly one. -/
theorem double_error_on_error_then_abort :
    errCount (runEvents cfgNext initialEState [Ev.txError 7, Ev.txAbort 7]).outputs = 2 := by
  decide

/-- In the waiting-for-drain phase, any sequence of events containing no
drain signal leaves the adapter waiting and issues no cursor request:
`success` cannot be delivered (no request is outstanding) and the
transaction handlers only emit. -/
theorem drain_wait_steady (cfg : Config) :
    ∀ (evs : List Ev), evs.all (fun e => !e.isDrain) = true →
    ∀ st : EState, st.phase = Phase.awaitingDrain →
      (runEvents cfg st evs).phase = Phase.awaitingDrain
      ∧ (runEvents cfg st evs).advRequests = st.advRequests := by
  intro evs
  induction evs with
  | nil => intro _ st hph; exact ⟨hph, rfl⟩
  | cons e t ih =>
      intro hall st hph
      have he : !e.isDrain := by
        simp [List.all_cons] at hall
        exact by simpa using hall.1
      have ht : t.all (fun e => !e.isDrain) = true := by
        simp [List.all_cons] at hall
        simpa using hall.2
      have hstep : (handleEvent cfg st e).phase = Phase.awaitingDrain
          ∧ (handleEvent cfg st e).advRequests = st.advRequests := by
        cases e with
        | success res writeOk contThrows => simp [handleEvent, hph]
        | drain contThrows => simp [Ev.isDrain] at he
        | txAbort code => simp [handleEvent, hph]
        | txError code => simp [handleEvent, hph]
      have := ih ht (handleEvent cfg st e) hstep.1
      refine ⟨this.1, ?_⟩
      calc (runEvents cfg st (e :: t)).advRequests
          = (runEvents cfg (handleEvent cfg st e) t).advRequests := rfl
        _ = (handleEvent cfg st e).advRequests := this.2
        _ = st.advRequests := hstep.2

/-- A drain signal delivered while the adapter waits for it triggers the
registered `proceed`, whose successful `cursor.continue()` issues exactly
one new cursor request. -/
theorem drain_triggers_one_request (cfg : Config) (st : EState)
    (h : st.phase = Phase.awaitingDrain) :
    (handleEvent cfg st (.drain false)).advRequests = st.advRequests + 1 := by
  simp [handleEvent, h, proceedStep]

/-- C5: when a pushed record is declined (buffer at or over capacity), the
adapter moves to the waiting-for-drain phase having issued no new cursor
request; over any further drain-free event sequence it issues zero
requests; the drain signal then causes exactly one request; and an
accepted push causes exactly one request immediately. -/
theorem backpressure_respected (cfg : Config) (st : EState) (k v : Int)
    (evs : List Ev) (cThrows : Bool)
    (hph : st.phase = Phase.awaitingSuccess)
    (hnd : evs.all (fun e => !e.isDrain) = true) :
    (handleEvent cfg st (.success (some (k, v)) false cThrows)).advRequests
        = st.advRequests
    ∧ (handleEvent cfg st (.success (some (k, v)) false cThrows)).phase
        = Phase.awaitingDrain
    ∧ (runEvents cfg (handleEvent cfg st (.success (some (k, v)) false cThrows))
          evs).advRequests = st.advRequests
    ∧ (handleEvent cfg
          (runEvents cfg (handleEvent cfg st (.success (some (k, v)) false cThrows)) evs)
          (.drain false)).advRequests = st.advRequests + 1
    ∧ (handleEvent cfg st (.success (some (k, v)) true false)).advRequests
        = st.advRequests + 1 := by
  have h1 : (handleEvent cfg st (.success (some (k, v)) false cThrows)).advRequests
      = st.advRequests := by simp [handleEvent, hph]
  have h2 : (handleEvent cfg st (.success (some (k, v)) false cThrows)).phase
      = Phase.awaitingDrain := by simp [handleEvent, hph]
  have h3 := drain_wait_steady cfg evs hnd
    (handleEvent cfg st (.success (some (k, v)) false cThrows)) h2
  refine ⟨h1, h2, by rw [h3.2, h1], ?_, by simp [handleEvent, hph, proceedStep]⟩
  rw [drain_triggers_one_request cfg _ h3.1, h3.2, h1]

/-- Witness for `backpressure_respected` at a concrete state, record and
drain-free event list. -/
theorem backpressure_respected_witness :
    (initialEState.phase = Phase.awaitingSuccess
      ∧ [Ev.txAbort 7].all (fun e => !e.isDrain) = true)
    ∧ ((handleEvent cfgNext initialEState (.success (some (1, 10)) false false)).advRequests
          = initialEState.advRequests
      ∧ (handleEvent cfgNext initialEState (.success (some (1, 10)) false false)).phase
          = Phase.awaitingDrain
      ∧ (runEvents cfgNext
            (handleEvent cfgNext initialEState (.success (some (1, 10)) false false))
            [Ev.txAbort 7]).advRequests = initialEState.advRequests
      ∧ (handleEvent cfgNext
            (runEvents cfgNext
              (handleEvent cfgNext initialEState (.success (some (1, 10)) false false))
              [Ev.txAbort 7])
            (.drain false)).advRequests = initialEState.advRequests + 1
      ∧ (handleEvent cfgNext initialEState (.success (some (1, 10)) true false)).advRequests
          = initialEState.advRequests + 1) :=
  ⟨⟨rfl, rfl⟩,
    backpressure_respected cfgNext initialEState 1 10 [Ev.txAbort 7] false rfl rfl⟩

/-- C3: `reopenOnTimeout` defaults to true; for a run whose first scheduled
transaction-inactive condition actually fires (the fault index hits a
record of the current generation), with reopening enabled the consumer
never receives an error signal and at least one replacement cursor is
opened, while with reopening disabled the run's output is the records
emitted so far followed by exactly one error signal and nothing after it. -/
theorem reopen_on_timeout_behavior (store : List (Int × Int)) (cfg : Config)
    (last : Option Int) (opened n : Nat) (rest : List Nat) (r : Int × Int)
    (h : (genRecs store cfg last)[n]? = some r) :
    resolveReopenOnTimeout none = true
    ∧ (cfg.reopenOnTimeout = true →
        errCount (runStream store cfg last opened (n :: rest)).1 = 0
        ∧ opened + 2 ≤ (runStream store cfg last opened (n :: rest)).2)
    ∧ (cfg.reopenOnTimeout = false →
        (runStream store cfg last opened (n :: rest)).1
          = ((genRecs store cfg last).take (n + 1)).map (fun p => Out.data p.1 p.2)
            ++ [Out.errSig .transactionInactive]
        ∧ errCount (runStream store cfg last opened (n :: rest)).1 = 1) := by
  refine ⟨rfl, ?_, ?_⟩
  · intro ht
    refine ⟨errCount_runStream_reopen store cfg ht _ _ _, ?_⟩
    have hle := opened_succ_le_runStream store cfg rest (some r.1) (opened + 1)
    simp [runStream, h, ht]
    omega
  · intro hf
    constructor
    · simp [runStream, h, hf]
    · simp [runStream, h, hf, errCount_append, errCount_take_map_data, errCount]

/-- Witness for `reopen_on_timeout_behavior` at the concrete store 1..5
with the default forward direction and a fault scheduled on the first
record. -/
theorem reopen_on_timeout_behavior_witness :
    (genRecs store5 cfgNext none)[0]? = some (1, 10)
    ∧ (resolveReopenOnTimeout none = true
      ∧ (cfgNext.reopenOnTimeout = true →
          errCount (runStream store5 cfgNext none 0 [0]).1 = 0
          ∧ 0 + 2 ≤ (runStream store5 cfgNext none 0 [0]).2)
      ∧ (cfgNext.reopenOnTimeout = false →
          (runStream store5 cfgNext none 0 [0]).1
            = ((genRecs store5 cfgNext none).take (0 + 1)).map (fun p => Out.data p.1 p.2)
              ++ [Out.errSig .transactionInactive]
          ∧ errCount (runStream store5 cfgNext none 0 [0]).1 = 1)) :=
  ⟨by decide, reopen_on_timeout_behavior store5 cfgNext none 0 0 [] (1, 10) (by decide)⟩

/-- C7: whenever the store handle is not object-shaped (its `typeof` is not
"object") or the collection name is not a string, construction fails with
the corresponding `TypeError` and zero transactions are opened. -/
theorem invalid_construction_synchronous (db sn opts : JSVal)
    (h : db.typeofJs ≠ "object" ∨ sn.typeofJs ≠ "string") :
    ((construct db sn opts).1 = .error .dbNotObject
      ∨ (construct db sn opts).1 = .error .storeNameNotString)
    ∧ (construct db sn opts).2 = 0 := by
  by_cases hdb : db.typeofJs = "object"
  · have hsn : sn.typeofJs ≠ "string" := by tauto
    refine ⟨Or.inr ?_, ?_⟩ <;> simp [construct, hdb, hsn]
  · refine ⟨Or.inl ?_, ?_⟩ <;> simp [construct, hdb]

/-- Witness for `invalid_construction_synchronous`: a numeric store handle. -/
theorem invalid_construction_synchronous_witness :
    ((JSVal.number 3).typeofJs ≠ "object" ∨ (JSVal.string "items").typeofJs ≠ "string")
    ∧ (((construct (.number 3) (.string "items") .undef).1 = .error .dbNotObject
        ∨ (construct (.number 3) (.string "items") .undef).1 = .error .storeNameNotString)
      ∧ (construct (.number 3) (.string "items") .undef).2 = 0) :=
  ⟨Or.inl (by decide),
    invalid_construction_synchronous (.number 3) (.string "items") .undef
      (Or.inl (by decide))⟩

/-- C10: a `null` store handle passes the construction-time type check
(`typeof null` is "object") and fails only at the first
`db.transaction(...)` call; the store-handle `TypeError` is raised exactly
for the handles that are neither `null` nor objects. -/
theorem null_db_passes_validation (sn opts : JSVal)
    (hsn : sn.typeofJs = "string")
    (hopts : opts.eqNull = true ∨ opts.typeofJs = "object") :
    construct .jsNull sn opts = (.error .nullTransactionCall, 0)
    ∧ ∀ db : JSVal, (construct db sn opts).1 = .error .dbNotObject ↔
        (db ≠ .jsNull ∧ db ≠ .object) := by
  obtain ⟨s, rfl⟩ : ∃ s, sn = JSVal.string s := by
    cases sn with
    | string s => exact ⟨s, rfl⟩
    | undef => exact absurd hsn (by decide)
    | jsNull => exact absurd hsn (by decide)
    | boolean b => exact absurd hsn (by simp [JSVal.typeofJs])
    | number n => exact absurd hsn (by simp [JSVal.typeofJs])
    | object => exact absurd hsn (by decide)
    | function => exact absurd hsn (by decide)
  have hop : opts = JSVal.undef ∨ opts = JSVal.jsNull ∨ opts = JSVal.object := by
    rcases hopts with ho | ho
    · cases opts with
      | undef => exact Or.inl rfl
      | jsNull => exact Or.inr (Or.inl rfl)
      | boolean b => exact absurd ho (by simp [JSVal.eqNull])
      | number n => exact absurd ho (by simp [JSVal.eqNull])
      | string t => exact absurd ho (by simp [JSVal.eqNull])
      | object => exact absurd ho (by decide)
      | function => exact absurd ho (by decide)
    · cases opts with
      | jsNull => exact Or.inr (Or.inl rfl)
      | object => exact Or.inr (Or.inr rfl)
      | undef => exact absurd ho (by decide)
      | boolean b => exact absurd ho (by simp [JSVal.typeofJs])
      | number n => exact absurd ho (by simp [JSVal.typeofJs])
      | string t => exact absurd ho (by simp [JSVal.typeofJs])
      | function => exact absurd ho (by decide)
  rcases hop with rfl | rfl | rfl <;>
    refine ⟨rfl, fun db => ?_⟩ <;> cases db <;>
      simp [construct, JSVal.typeofJs, JSVal.eqNull]

/-- Witness for `null_db_passes_validation` at the collection name "items"
and absent options. -/
theorem null_db_passes_validation_witness :
    ((JSVal.string "items").typeofJs = "string"
      ∧ ((JSVal.undef).eqNull = true ∨ (JSVal.undef).typeofJs = "object"))
    ∧ (construct .jsNull (.string "items") .undef = (.error .nullTransactionCall, 0)
      ∧ ∀ db : JSVal, (construct db (.string "items") .undef).1 = .error .dbNotObject ↔
          (db ≠ .jsNull ∧ db ≠ .object)) :=
  ⟨⟨by decide, Or.inl (by decide)⟩,
    null_db_passes_validation (.string "items") .undef (by decide) (Or.inl (by decide))⟩
